import Mathlib

/-!
Shallow embedding of the ATN graph renderer
(`src/webview-scripts/ATNGraphRenderer.ts` of vscode-antlr4) in Lean 4,
with theorems settling the specification claims about it.

JavaScript numbers are modelled as exact rationals (`ℚ`).  Values that may
be `undefined`/`null` in the source (node coordinates, pins, widths) are
modelled as `Option ℚ`, with `.getD 0` standing for the source's `?? 0`.
-/

namespace ATNGraph

/-- A line segment, mirroring the `ILine` interface of the source. -/
structure ILine where
  x1 : ℚ
  y1 : ℚ
  x2 : ℚ
  y2 : ℚ
deriving Repr, DecidableEq

/--
`lineIntersection` from `ATNGraphRenderer.ts` (lines 445-460).

The source computes `s` and `t` by the standard two-segment intersection
formula and returns the point on `line1` when `0 ≤ s ≤ 1 ∧ 0 ≤ t ≤ 1`,
else `undefined`.  When the common denominator `-s2X*s1Y + s1X*s2Y` is `0`,
JavaScript division yields `±Infinity` or `NaN`, for which every comparison
`s >= 0 && s <= 1` is false, so the source returns `undefined`; the explicit
`denom = 0` guard below models exactly that behaviour over `ℚ`
(where `x / 0 = 0` would otherwise wrongly pass the range test).
-/
def lineIntersection (line1 line2 : ILine) : Option (ℚ × ℚ) :=
  let s1X := line1.x2 - line1.x1
  let s1Y := line1.y2 - line1.y1
  let s2X := line2.x2 - line2.x1
  let s2Y := line2.y2 - line2.y1
  let denom := -s2X * s1Y + s1X * s2Y
  if denom = 0 then
    none
  else
    let s := (-s1Y * (line1.x1 - line2.x1) + s1X * (line1.y1 - line2.y1)) / denom
    let t := (s2X * (line1.y1 - line2.y1) - s2Y * (line1.x1 - line2.x1)) / denom
    if 0 ≤ s ∧ s ≤ 1 ∧ 0 ≤ t ∧ t ≤ 1 then
      some (line1.x1 + t * s1X, line1.y1 + t * s1Y)
    else
      none

/-- The numeric `ATNStateType` values used by the renderer.  Index `0`
(`INVALID_TYPE`) doubles as the rule-call placeholder (`ATNRuleType`). -/
def ATNRuleType : ℕ := 0

def RULE_START : ℕ := 2

def RULE_STOP : ℕ := 7

/-- The 13-entry `stateType` lookup table of the source (lines 11-32),
restricted to the `short` names (the `long` descriptions play no role in
the claims).  It is indexed by the numeric state type without a bounds
check in the source. -/
def stateTypeShort : List String :=
  ["RULE", "BASIC", "START", "BSTART", "PBSTART", "SBSTART", "TSTART",
   "STOP", "BEND", "SLBACK", "SLENTRY", "PLBACK", "LEND"]

/-- A graph node (`IATNGraphLayoutNode`): numeric state type, display
name, simulation coordinates `x`/`y`, pinned coordinates `fx`/`fy`, and
the derived rectangle `width` of rule-call nodes.  `none` models both
JavaScript `undefined` and `null`. -/
structure Node where
  type : ℕ
  name : String := ""
  x : Option ℚ := none
  y : Option ℚ := none
  fx : Option ℚ := none
  fy : Option ℚ := none
  width : Option ℚ := none
deriving Repr, DecidableEq

/-- A link label (`{content, class?}`). -/
structure LinkLabel where
  content : String
  classAttr : Option String := none
deriving Repr, DecidableEq

/-- The `marker-end` attribute computed for a link in `render`
(lines 135-141).  The source reads `nodes[link.target].type` without a
bounds check; an out-of-range `link.target` makes `nodes[link.target]`
`undefined`, and the `.type` member access throws a `TypeError` —
modelled here by `none`.  `render` contains no logic that drops such a
link before this access. -/
def markerEnd (nodes : List Node) (target : ℕ) : Option String :=
  (nodes.get? target).map fun n =>
    if n.type = ATNRuleType then "url(#transitionEndRect)"
    else "url(#transitionEndCircle)"

/-- The CSS class string computed for a node figure in `render`
(lines 147-151): `stateType[figure.type].short` is read without a bounds
check, so a `type` outside `0..12` throws a `TypeError` — modelled here by
`none` — instead of falling back to a basic shape. -/
def figureCssClass (objectName : String) (figure : Node) : Option String :=
  (stateTypeShort.get? figure.type).map fun shortName =>
    let cssClass := "state " ++ shortName
    if figure.name = objectName then cssClass ++ " recursive" else cssClass

/-- Truthiness of an optional numeric field as JavaScript's `!node.fy`
sees it: `null`/`undefined` (`none`) and `0` are falsy. -/
def isFalsy (v : Option ℚ) : Bool := v.getD 0 = 0

/-- `resetNodePositions` (lines 266-291), for one node: clear both pins,
then give `RULE_START` nodes an initial (not fixed) x of `-1000` when they
have no x yet, and pin `RULE_START`/`RULE_STOP` nodes to `fy = 0` (the
source's guard `if (!node.fy)` always fires, because `fy` was set to
`null` just above). -/
def resetNode (node : Node) : Node :=
  let node := { node with fx := none, fy := none }
  if node.type = RULE_START then
    let node := if node.x = none then { node with x := some (-1000) } else node
    if isFalsy node.fy then { node with fy := some 0 } else node
  else if node.type = RULE_STOP then
    if isFalsy node.fy then { node with fy := some 0 } else node
  else
    node

/-- `resetNodePositions` (lines 266-291) over the node sequence. -/
def resetNodePositions (nodes : List Node) : List Node :=
  nodes.map resetNode

/-- Loop body of `appendLinkText` (lines 299-324): `total` is
`link.labels.length`, `lineNumber` the counter that the source
pre-increments at the top of each iteration.  Counting is done in `ℤ`
because `remainingCount` may be negative in the source. -/
def linkLabelLinesAux (maxLabelCount total : ℤ) :
    ℤ → List LinkLabel → List String
  | _, [] => []
  | lineNumber, label :: rest =>
    let lineNumber := lineNumber + 1
    label.content ::
      (if lineNumber = maxLabelCount then
        if total - maxLabelCount > 0 then
          [toString (total - maxLabelCount) ++ " more ..."]
        else []
      else
        linkLabelLinesAux maxLabelCount total lineNumber rest)

/-- `appendLinkText` (lines 298-326) for a single link: the ordered list
of `tspan` texts appended below the link. -/
def linkLabelLines (maxLabelCount : ℤ) (labels : List LinkLabel) :
    List String :=
  linkLabelLinesAux maxLabelCount labels.length 0 labels

/-- The grid unit (`ATNGraphRenderer.gridSize`, line 83). -/
def gridSize : ℚ := 20

/-- `snapToGrid` (lines 588-590).  JavaScript's `Math.round` is
`⌊x + 1/2⌋`, which is exactly Mathlib's `round` on `ℚ`. -/
def snapToGrid (value : ℚ) : ℚ :=
  ((round (value / gridSize) : ℤ) : ℚ) * gridSize

/-- `dragStarted` (lines 568-575): pin the grabbed node to the raw
(unsnapped) pointer position.  The simulation re-heating has no effect on
the pinned coordinates and is not modelled. -/
def dragStarted (e : ℚ × ℚ) (subject : Node) : Node :=
  { subject with fx := some e.1, fy := some e.2 }

/-- `dragged` (lines 577-580): re-pin the node to the pointer position
snapped to the grid. -/
def dragged (e : ℚ × ℚ) (subject : Node) : Node :=
  { subject with fx := some (snapToGrid e.1), fy := some (snapToGrid e.2) }

/-- A full drag gesture: the `start` event followed by the `drag` events,
applied to the grabbed node. -/
def dragSequence (start : ℚ × ℚ) (moves : List (ℚ × ℚ))
    (subject : Node) : Node :=
  moves.foldl (fun n e => dragged e n) (dragStarted start subject)

/-- The scale extent configured on the zoom behaviour in `render`
(line 123): `scaleExtent([0.15, 3])`. -/
def scaleExtentLo : ℚ := 0.15

def scaleExtentHi : ℚ := 3

/-- Modelled from the spec: the d3 zoom behaviour that enforces
`scaleExtent` is library code, not under `src/`; per the spec's invariant
"scale ∈ [0.15, 3.0]", a zoom gesture multiplies the current scale by the
gesture's factor and clamps the result to the configured extent. -/
def applyZoomGesture (k factor : ℚ) : ℚ :=
  max scaleExtentLo (min scaleExtentHi (k * factor))

/-- A sequence of zoom gestures applied to a starting scale. -/
def applyZoomGestures (k : ℚ) (factors : List ℚ) : ℚ :=
  factors.foldl applyZoomGesture k

/-- A d3 `ZoomTransform`: scale `k` and translation `x`/`y`. -/
structure ViewTransform where
  k : ℚ
  x : ℚ
  y : ℚ
deriving Repr, DecidableEq

/-- `d3.zoomIdentity.scale(k).translate(x, y)` per d3's documented
transform algebra: scaling gives `{k, 0, 0}` and translating then adds
`k·x`/`k·y`, so the result is `{k, k·x, k·y}`. -/
def zoomIdentityScaleTranslate (k x y : ℚ) : ViewTransform :=
  ⟨k, k * x, k * y⟩

/-- The renderer options (`IATNGraphRendererData`) together with the
viewport extents read from the `svg` element. -/
structure RendererConfig where
  objectName : String := ""
  maxLabelCount : ℤ := 3
  initialScale : ℚ := 1
  initialTranslationX : Option ℚ := none
  initialTranslationY : Option ℚ := none
  clientWidth : ℚ := 0
  clientHeight : ℚ := 0
deriving Repr, DecidableEq

/-- The mutable state touched by `resetTransformation`: the view
transform installed on the top group and the node sequence. -/
structure RenderState where
  transform : ViewTransform
  nodes : List Node
deriving Repr, DecidableEq

/-- `resetTransformation` (lines 253-264): recompute the translation from
the configured initial translation, falling back to the centre of the
viewport, install `zoomIdentity.scale(initialScale).translate(x, y)` as
the view transform, and reset the node positions. -/
def resetTransformation (cfg : RendererConfig) (st : RenderState) :
    RenderState :=
  let xTranslate := cfg.initialTranslationX.getD (cfg.clientWidth / 2)
  let yTranslate := cfg.initialTranslationY.getD (cfg.clientHeight / 2)
  { transform :=
      zoomIdentityScaleTranslate cfg.initialScale xTranslate yTranslate,
    nodes := resetNodePositions st.nodes }

/-- The first intersection of the source→target-centre segment with one of
the four edges of a rule-call target's rectangle, tried in the source's
order (`endCoordinate`, lines 374-427): horizontal edge at `y - 25`,
horizontal edge at `y + 25`, vertical edge at `x - width/2`, vertical edge
at `x + width/2`. -/
def ruleClipIntersection (sourceX sourceY targetX targetY targetWidth : ℚ) :
    Option (ℚ × ℚ) :=
  let line1 : ILine := ⟨sourceX, sourceY, targetX, targetY⟩
  match lineIntersection line1
      ⟨targetX - targetWidth / 2, targetY - 25,
       targetX + targetWidth / 2, targetY - 25⟩ with
  | some intersection => some intersection
  | none =>
    match lineIntersection line1
        ⟨targetX - targetWidth / 2, targetY + 25,
         targetX + targetWidth / 2, targetY + 25⟩ with
    | some intersection => some intersection
    | none =>
      match lineIntersection line1
          ⟨targetX - targetWidth / 2, targetY - 25,
           targetX - targetWidth / 2, targetY + 25⟩ with
      | some intersection => some intersection
      | none =>
        lineIntersection line1
          ⟨targetX + targetWidth / 2, targetY - 25,
           targetX + targetWidth / 2, targetY + 25⟩

/-- `endCoordinate` (lines 364-435) for a resolved link (both ends are
node objects — d3's link force resolves index references before the first
tick, and `transformLines` only calls `endCoordinate` in that state).
The source runs the same intersection chain once for the x coordinate
(`horizontal = true`) and once for the y coordinate; the chain is shared
here as `ruleClipIntersection`. -/
def endCoordinate (horizontal : Bool) (source target : Node) : ℚ :=
  if target.type = ATNRuleType then
    match ruleClipIntersection (source.x.getD 0) (source.y.getD 0)
        (target.x.getD 0) (target.y.getD 0) (target.width.getD 0) with
    | some intersection =>
      if horizontal then intersection.1 else intersection.2
    | none => if horizontal then target.x.getD 0 else target.y.getD 0
  else
    if horizontal then target.x.getD 0 else target.y.getD 0

/-- The clip point of a link, as `transformLines` (lines 532-566) obtains
it: the x2 attribute is `endCoordinate true` and the y2 attribute is
`endCoordinate false`. -/
def clipPoint (source target : Node) : ℚ × ℚ :=
  (endCoordinate true source target, endCoordinate false source target)

/-- Membership in the boundary of the rule-call rectangle centred at
`(targetX, targetY)` with the given half-width and half-height `25`. -/
def onRuleRectBoundary (targetX targetY halfWidth : ℚ) (p : ℚ × ℚ) : Prop :=
  (|p.2 - targetY| = 25 ∧ |p.1 - targetX| ≤ halfWidth) ∨
  (|p.1 - targetX| = halfWidth ∧ |p.2 - targetY| ≤ 25)

/--
Cramer-style identity behind the two-segment intersection formula:
with direction vectors `(a, b)` for segment 1 and `(c, d)` for segment 2 and
offsets `p`, `q` between the two start points, the parameters `t` and `s`
produced by the formula reach the same point from both start points.
-/
theorem cramer_aux (a b c d p q : ℚ) (hD : ¬ (-c * b + a * d = 0)) :
    (c * q - d * p) / (-c * b + a * d) * a -
      (-b * p + a * q) / (-c * b + a * d) * c = -p ∧
    (c * q - d * p) / (-c * b + a * d) * b -
      (-b * p + a * q) / (-c * b + a * d) * d = -q := by
  constructor
  · rw [div_mul_eq_mul_div, div_mul_eq_mul_div, div_sub_div_same, div_eq_iff hD]
    ring
  · rw [div_mul_eq_mul_div, div_mul_eq_mul_div, div_sub_div_same, div_eq_iff hD]
    ring

/--
Helper: whenever `lineIntersection` returns a point, that point lies on both
input segments, witnessed by parameters `t` (for `line1`) and `s` (for
`line2`) in `[0, 1]`.
-/
theorem lineIntersection_on_both_segments (line1 line2 : ILine) (p : ℚ × ℚ)
    (h : lineIntersection line1 line2 = some p) :
    ∃ t s : ℚ, 0 ≤ t ∧ t ≤ 1 ∧ 0 ≤ s ∧ s ≤ 1 ∧
      p.1 = line1.x1 + t * (line1.x2 - line1.x1) ∧
      p.2 = line1.y1 + t * (line1.y2 - line1.y1) ∧
      p.1 = line2.x1 + s * (line2.x2 - line2.x1) ∧
      p.2 = line2.y1 + s * (line2.y2 - line2.y1) := by
  simp only [lineIntersection] at h
  split at h
  · exact Option.noConfusion h
  · next hd =>
      split at h
      · next hc =>
          rw [Option.some.injEq] at h
          obtain ⟨hs0, hs1, ht0, ht1⟩ := hc
          obtain ⟨hx, hy⟩ :=
            cramer_aux (line1.x2 - line1.x1) (line1.y2 - line1.y1)
              (line2.x2 - line2.x1) (line2.y2 - line2.y1)
              (line1.x1 - line2.x1) (line1.y1 - line2.y1) hd
          refine ⟨_, _, ht0, ht1, hs0, hs1, ?_, ?_, ?_, ?_⟩
          · rw [← h]
          · rw [← h]
          · rw [← h]
            show line1.x1 + _ * (line1.x2 - line1.x1) = line2.x1 + _ * (line2.x2 - line2.x1)
            linarith [hx]
          · rw [← h]
            show line1.y1 + _ * (line1.y2 - line1.y1) = line2.y1 + _ * (line2.y2 - line2.y1)
            linarith [hy]
      · exact Option.noConfusion h

/-- Helper: an intersection returned against a horizontal edge running from
`(tx - w/2, ey)` to `(tx + w/2, ey)` lies on that edge. -/
theorem horizClip (line1 : ILine) (tx w ey : ℚ) (hw : 0 ≤ w) (p : ℚ × ℚ)
    (h : lineIntersection line1 ⟨tx - w / 2, ey, tx + w / 2, ey⟩ = some p) :
    p.2 = ey ∧ |p.1 - tx| ≤ w / 2 := by
  obtain ⟨t, s, _, _, hs0, hs1, _, _, hx, hy⟩ :=
    lineIntersection_on_both_segments _ _ _ h
  simp only at hx hy
  constructor
  · rw [hy]; ring
  · rw [abs_le]
    constructor
    · nlinarith [mul_nonneg hs0 hw]
    · nlinarith [mul_nonneg (sub_nonneg.mpr hs1) hw]

/-- Helper: an intersection returned against a vertical edge running from
`(ex, ty - 25)` to `(ex, ty + 25)` lies on that edge. -/
theorem vertClip (line1 : ILine) (ty ex : ℚ) (p : ℚ × ℚ)
    (h : lineIntersection line1 ⟨ex, ty - 25, ex, ty + 25⟩ = some p) :
    p.1 = ex ∧ |p.2 - ty| ≤ 25 := by
  obtain ⟨t, s, _, _, hs0, hs1, _, _, hx, hy⟩ :=
    lineIntersection_on_both_segments _ _ _ h
  simp only at hx hy
  constructor
  · rw [hx]; ring
  · rw [abs_le]
    constructor
    · nlinarith
    · nlinarith

/-- C10: whenever `lineIntersection` returns a point for `line1` and
`line2`, that point lies on `line1` (it is `line1`'s start plus `t` times
`line1`'s direction for some `t ∈ [0, 1]`) and the corresponding parameter
`s` for `line2` also lies in `[0, 1]`, so the point lies within both input
segments. -/
theorem C10_intersection_within_both_segments (line1 line2 : ILine)
    (p : ℚ × ℚ) (h : lineIntersection line1 line2 = some p) :
    ∃ t s : ℚ, 0 ≤ t ∧ t ≤ 1 ∧ 0 ≤ s ∧ s ≤ 1 ∧
      p.1 = line1.x1 + t * (line1.x2 - line1.x1) ∧
      p.2 = line1.y1 + t * (line1.y2 - line1.y1) ∧
      p.1 = line2.x1 + s * (line2.x2 - line2.x1) ∧
      p.2 = line2.y1 + s * (line2.y2 - line2.y1) :=
  lineIntersection_on_both_segments line1 line2 p h

/-- Witness for C10 at the concrete segments `(0,0)–(2,0)` and
`(1,-1)–(1,1)`, which intersect at `(1, 0)`. -/
theorem C10_intersection_within_both_segments_witness :
    ∃ t s : ℚ, 0 ≤ t ∧ t ≤ 1 ∧ 0 ≤ s ∧ s ≤ 1 ∧
      ((1 : ℚ), (0 : ℚ)).1 = (ILine.mk 0 0 2 0).x1 +
        t * ((ILine.mk 0 0 2 0).x2 - (ILine.mk 0 0 2 0).x1) ∧
      ((1 : ℚ), (0 : ℚ)).2 = (ILine.mk 0 0 2 0).y1 +
        t * ((ILine.mk 0 0 2 0).y2 - (ILine.mk 0 0 2 0).y1) ∧
      ((1 : ℚ), (0 : ℚ)).1 = (ILine.mk 1 (-1) 1 1).x1 +
        s * ((ILine.mk 1 (-1) 1 1).x2 - (ILine.mk 1 (-1) 1 1).x1) ∧
      ((1 : ℚ), (0 : ℚ)).2 = (ILine.mk 1 (-1) 1 1).y1 +
        s * ((ILine.mk 1 (-1) 1 1).y2 - (ILine.mk 1 (-1) 1 1).y1) :=
  C10_intersection_within_both_segments ⟨0, 0, 2, 0⟩ ⟨1, -1, 1, 1⟩ (1, 0)
    (by norm_num [lineIntersection])

/-- Helper: when `line1` degenerates to a point, every intersection test
has denominator `0` and returns `none`. -/
theorem lineIntersection_point_line1 (a b : ℚ) (line2 : ILine) :
    lineIntersection ⟨a, b, a, b⟩ line2 = none := by
  simp [lineIntersection]

/-- C5: degenerate geometry is signalled, never silently propagated: a
zero denominator in the two-segment formula (zero-length or parallel
segments — the cases where JavaScript division would produce
`NaN`/`Infinity`) makes `lineIntersection` return the no-intersection
signal `none`, and when the source centre coincides with the centre of a
rule-call target (so all four edge tests degenerate), `endCoordinate`
falls back to the target's centre coordinates. -/
theorem C5_degenerate_geometry_signalled (line1 line2 : ILine)
    (source target : Node)
    (hden : -(line2.x2 - line2.x1) * (line1.y2 - line1.y1) +
      (line1.x2 - line1.x1) * (line2.y2 - line2.y1) = 0)
    (hrule : target.type = ATNRuleType)
    (hx : source.x.getD 0 = target.x.getD 0)
    (hy : source.y.getD 0 = target.y.getD 0) :
    lineIntersection line1 line2 = none ∧
    clipPoint source target = (target.x.getD 0, target.y.getD 0) := by
  constructor
  · simp only [lineIntersection]
    rw [if_pos hden]
  · have hnone : ruleClipIntersection (source.x.getD 0) (source.y.getD 0)
        (target.x.getD 0) (target.y.getD 0) (target.width.getD 0) = none := by
      rw [hx, hy]
      simp [ruleClipIntersection, lineIntersection_point_line1]
    simp [clipPoint, endCoordinate, hrule, hnone]

/-- Witness for C5: parallel horizontal segments yield `none`, and a link
whose source sits exactly on the centre of its rule-call target is clipped
to that centre. -/
theorem C5_degenerate_geometry_signalled_witness :
    lineIntersection ⟨0, 0, 4, 0⟩ ⟨1, 1, 3, 1⟩ = none ∧
    clipPoint
        { type := 1, x := some 5, y := some 6 }
        { type := 0, x := some 5, y := some 6, width := some 100 } =
      (((({ type := 0, x := some 5, y := some 6, width := some 100 } :
          Node).x.getD 0)),
        (({ type := 0, x := some 5, y := some 6, width := some 100 } :
          Node).y.getD 0)) :=
  C5_degenerate_geometry_signalled ⟨0, 0, 4, 0⟩ ⟨1, 1, 3, 1⟩
    { type := 1, x := some 5, y := some 6 }
    { type := 0, x := some 5, y := some 6, width := some 100 }
    (by norm_num) rfl rfl rfl

/-- C1: for a link whose target is a rule-call (rectangular) node, the
clip point computed by `endCoordinate` (x via `horizontal = true`, y via
`horizontal = false`) is the first intersection — in the source's fixed
edge order — of the source-centre→target-centre segment with one of the
four rectangle edges (half-width `width/2`, half-height `25`), and it lies
on the rectangle's boundary; when no edge yields an intersection with
parameters in `[0, 1]`, it equals the raw target centre. -/
theorem C1_clipPoint_on_boundary_or_center (source target : Node)
    (hrule : target.type = ATNRuleType)
    (hw : 0 ≤ target.width.getD 0) :
    onRuleRectBoundary (target.x.getD 0) (target.y.getD 0)
      (target.width.getD 0 / 2) (clipPoint source target) ∨
    clipPoint source target = (target.x.getD 0, target.y.getD 0) := by
  have hclip : clipPoint source target =
      match ruleClipIntersection (source.x.getD 0) (source.y.getD 0)
          (target.x.getD 0) (target.y.getD 0) (target.width.getD 0) with
      | some p => p
      | none => (target.x.getD 0, target.y.getD 0) := by
    cases h : ruleClipIntersection (source.x.getD 0) (source.y.getD 0)
        (target.x.getD 0) (target.y.getD 0) (target.width.getD 0) <;>
      simp [clipPoint, endCoordinate, hrule, h]
  set sx := source.x.getD 0 with hsx
  set sy := source.y.getD 0 with hsy
  set tx := target.x.getD 0 with htx
  set ty := target.y.getD 0 with hty
  set w := target.width.getD 0 with hwid
  cases hI : ruleClipIntersection sx sy tx ty w with
  | none =>
    right
    rw [hclip, hI]
  | some p =>
    left
    rw [hclip, hI]
    cases h1 : lineIntersection ⟨sx, sy, tx, ty⟩
        ⟨tx - w / 2, ty - 25, tx + w / 2, ty - 25⟩ with
    | some q =>
      simp only [ruleClipIntersection, h1, Option.some.injEq] at hI
      obtain ⟨hy, hb⟩ := horizClip _ tx w (ty - 25) hw p (hI ▸ h1)
      exact Or.inl ⟨by rw [hy]; norm_num, hb⟩
    | none =>
      cases h2 : lineIntersection ⟨sx, sy, tx, ty⟩
          ⟨tx - w / 2, ty + 25, tx + w / 2, ty + 25⟩ with
      | some q =>
        simp only [ruleClipIntersection, h1, h2, Option.some.injEq] at hI
        obtain ⟨hy, hb⟩ := horizClip _ tx w (ty + 25) hw p (hI ▸ h2)
        exact Or.inl ⟨by rw [hy]; norm_num, hb⟩
      | none =>
        cases h3 : lineIntersection ⟨sx, sy, tx, ty⟩
            ⟨tx - w / 2, ty - 25, tx - w / 2, ty + 25⟩ with
        | some q =>
          simp only [ruleClipIntersection, h1, h2, h3, Option.some.injEq] at hI
          obtain ⟨hx, hb⟩ := vertClip _ ty (tx - w / 2) p (hI ▸ h3)
          refine Or.inr ⟨?_, hb⟩
          rw [hx, show tx - w / 2 - tx = -(w / 2) by ring, abs_neg,
            abs_of_nonneg (by linarith)]
        | none =>
          simp only [ruleClipIntersection, h1, h2, h3] at hI
          obtain ⟨hx, hb⟩ := vertClip _ ty (tx + w / 2) p hI
          refine Or.inr ⟨?_, hb⟩
          rw [hx, show tx + w / 2 - tx = w / 2 by ring,
            abs_of_nonneg (by linarith)]

/-- Witness for C1: a source circle at `(0, -100)` pointing at a rule-call
rectangle centred at the origin with width `100`. -/
theorem C1_clipPoint_on_boundary_or_center_witness :
    onRuleRectBoundary
      (({ type := 0, x := some 0, y := some 0, width := some 100 } :
        Node).x.getD 0)
      (({ type := 0, x := some 0, y := some 0, width := some 100 } :
        Node).y.getD 0)
      (({ type := 0, x := some 0, y := some 0, width := some 100 } :
        Node).width.getD 0 / 2)
      (clipPoint { type := 1, x := some 0, y := some (-100) }
        { type := 0, x := some 0, y := some 0, width := some 100 }) ∨
    clipPoint { type := 1, x := some 0, y := some (-100) }
        { type := 0, x := some 0, y := some 0, width := some 100 } =
      (({ type := 0, x := some 0, y := some 0, width := some 100 } :
        Node).x.getD 0,
       ({ type := 0, x := some 0, y := some 0, width := some 100 } :
        Node).y.getD 0) :=
  C1_clipPoint_on_boundary_or_center
    { type := 1, x := some 0, y := some (-100) }
    { type := 0, x := some 0, y := some 0, width := some 100 }
    rfl (by norm_num)

/-- C2 counterexample: for labels `["a","b","c","d"]` and
`maxLabelCount = 2` the source appends the summary line after the second
label instead of replacing it, producing three lines, not two. -/
theorem C2_counterexample :
    linkLabelLines 2
        [⟨"a", none⟩, ⟨"b", none⟩, ⟨"c", none⟩, ⟨"d", none⟩] =
      ["a", "b", "2 more ..."] ∧
    ¬ (linkLabelLines 2
        [⟨"a", none⟩, ⟨"b", none⟩, ⟨"c", none⟩, ⟨"d", none⟩]).length = 2 := by
  constructor
  · rfl
  · decide

/-- Induction core for the amended C2: once the counter stands `m - ln`
labels short of the cap (with enough labels left and labels hidden), the
loop emits exactly those labels and then the summary line. -/
theorem linkLabelLinesAux_spec (m total : ℤ) (labels : List LinkLabel)
    (ln : ℤ) (h1 : ln < m) (h2 : m - ln ≤ labels.length)
    (h3 : 0 < total - m) :
    linkLabelLinesAux m total ln labels =
      (labels.take (m - ln).toNat).map LinkLabel.content ++
        [toString (total - m) ++ " more ..."] := by
  induction labels generalizing ln with
  | nil =>
    simp only [List.length_nil, Nat.cast_zero] at h2
    omega
  | cons label rest ih =>
    by_cases hm : ln + 1 = m
    · rw [show (m - ln).toNat = 1 by omega]
      simp [linkLabelLinesAux, hm, h3]
    · have h1' : ln + 1 < m := by omega
      have h2' : m - (ln + 1) ≤ rest.length := by
        simp only [List.length_cons, Nat.cast_add, Nat.cast_one] at h2
        omega
      rw [show (m - ln).toNat = (m - (ln + 1)).toNat + 1 by omega]
      simp only [linkLabelLinesAux, if_neg hm, List.take_succ_cons,
        List.map_cons, List.cons_append]
      rw [ih (ln + 1) h1' h2']

/-- C2 (amended): for a label list of length `n` and `maxLabelCount = m`
with `1 ≤ m < n`, label rendering produces `m + 1` lines: the first `m`
label contents followed by a summary line reading the count of hidden
labels (`n - m`) followed by " more ..." — the summary is appended after
the `m`-th label, not substituted for it. -/
theorem C2_amended_label_lines (maxLabelCount : ℤ) (labels : List LinkLabel)
    (h1 : 1 ≤ maxLabelCount) (h2 : maxLabelCount < (labels.length : ℤ)) :
    linkLabelLines maxLabelCount labels =
      (labels.take maxLabelCount.toNat).map LinkLabel.content ++
        [toString ((labels.length : ℤ) - maxLabelCount) ++ " more ..."] := by
  have h := linkLabelLinesAux_spec maxLabelCount labels.length labels 0
    (by omega) (by omega) (by omega)
  simpa using h

/-- Witness for the amended C2 at `["x1","x2","x3"]` and cap `2`. -/
theorem C2_amended_label_lines_witness :
    linkLabelLines 2 [⟨"x1", none⟩, ⟨"x2", none⟩, ⟨"x3", none⟩] =
      (([⟨"x1", none⟩, ⟨"x2", none⟩, ⟨"x3", none⟩] :
          List LinkLabel).take (2 : ℤ).toNat).map LinkLabel.content ++
        [toString ((([⟨"x1", none⟩, ⟨"x2", none⟩, ⟨"x3", none⟩] :
          List LinkLabel).length : ℤ) - 2) ++ " more ..."] :=
  C2_amended_label_lines 2 [⟨"x1", none⟩, ⟨"x2", none⟩, ⟨"x3", none⟩]
    (by norm_num) (by norm_num)

/-- C3 counterexample: a `RuleStart` node the collaborator pre-pinned at
`fy = 5` does not keep that pin through `resetNodePositions` — the source
clears both pins before the `if (!node.fy)` guard, so the guard always
fires and the pin ends up `0`. -/
theorem C3_counterexample :
    (resetNodePositions
        [{ type := RULE_START, x := some 0, y := some 0, fy := some 5 }]).map
      Node.fy = [some 0] ∧
    ¬ (resetNodePositions
        [{ type := RULE_START, x := some 0, y := some 0, fy := some 5 }]).map
      Node.fy = [some 5] := by
  constructor
  · rfl
  · intro h
    simp [resetNodePositions, resetNode, isFalsy, RULE_START] at h

/-- Characterization of `resetNode` on `RuleStart` nodes. -/
theorem resetNode_eq_start (node : Node) (h : node.type = RULE_START) :
    resetNode node =
      { node with
          x := (if node.x = none then some (-1000) else node.x),
          fx := none,
          fy := some 0 } := by
  by_cases hx : node.x = none <;>
    simp [resetNode, RULE_START, RULE_STOP, h, hx, isFalsy]

/-- Characterization of `resetNode` on `RuleStop` nodes. -/
theorem resetNode_eq_stop (node : Node) (h : node.type = RULE_STOP) :
    resetNode node = { node with fx := none, fy := some 0 } := by
  simp [resetNode, RULE_START, RULE_STOP, h, isFalsy]

/-- C3 (amended): after `resetNodePositions`, every `RuleStart` and
`RuleStop` node has `fy = 0` unconditionally — any collaborator pin is
cleared first, never preserved — and `fx = none`; a `RuleStart` node
additionally receives the initial (non-pinned) `x = -1000` exactly when it
had no x yet, while a `RuleStop` node's x is untouched. -/
theorem C3_amended_reset_pins (node : Node)
    (ht : node.type = RULE_START ∨ node.type = RULE_STOP) :
    (resetNode node).fy = some 0 ∧
    (resetNode node).fx = none ∧
    (node.type = RULE_START →
      (resetNode node).x = if node.x = none then some (-1000) else node.x) ∧
    (node.type = RULE_STOP → (resetNode node).x = node.x) := by
  rcases ht with h | h
  · rw [resetNode_eq_start node h]
    exact ⟨rfl, rfl, fun _ => rfl,
      fun hc => absurd (h.symm.trans hc) (by decide)⟩
  · rw [resetNode_eq_stop node h]
    exact ⟨rfl, rfl, fun hc => absurd (h.symm.trans hc) (by decide),
      fun _ => rfl⟩

/-- Witness for the amended C3 at a pre-pinned `RuleStop` node. -/
theorem C3_amended_reset_pins_witness :
    (resetNode { type := RULE_STOP, x := some 4, fy := some 9 }).fy =
      some 0 ∧
    (resetNode { type := RULE_STOP, x := some 4, fy := some 9 }).fx =
      none ∧
    (({ type := RULE_STOP, x := some 4, fy := some 9 } : Node).type =
        RULE_START →
      (resetNode { type := RULE_STOP, x := some 4, fy := some 9 }).x =
        if ({ type := RULE_STOP, x := some 4, fy := some 9 } : Node).x =
            none then some (-1000)
        else ({ type := RULE_STOP, x := some 4, fy := some 9 } : Node).x) ∧
    (({ type := RULE_STOP, x := some 4, fy := some 9 } : Node).type =
        RULE_STOP →
      (resetNode { type := RULE_STOP, x := some 4, fy := some 9 }).x =
        ({ type := RULE_STOP, x := some 4, fy := some 9 } : Node).x) :=
  C3_amended_reset_pins { type := RULE_STOP, x := some 4, fy := some 9 }
    (Or.inr rfl)

/-- C4 counterexample: a drag consisting of a start event at `(7, 7)` and
zero drag-move events leaves the raw, unsnapped start position pinned —
`dragStarted` does not snap — so the final pinned x is `7`, not a
multiple of the grid unit. -/
theorem C4_counterexample :
    (dragSequence (7, 7) [] { type := 1 }).fx = some 7 ∧
    ¬ ∃ k : ℤ, (7 : ℚ) = gridSize * k := by
  constructor
  · rfl
  · rintro ⟨k, hk⟩
    rw [gridSize] at hk
    have h7 : (7 : ℤ) = 20 * k := by exact_mod_cast hk
    omega

/-- Helper: `snapToGrid` always produces a multiple of the grid unit. -/
theorem snapToGrid_is_multiple (v : ℚ) :
    ∃ k : ℤ, snapToGrid v = gridSize * k :=
  ⟨round (v / gridSize), mul_comm _ _⟩

/-- C4 (amended): every pinned coordinate set by a drag-move event is
snapped to the grid, so whenever a drag sequence contains at least one
drag-move event, the final pinned coordinates of the dragged node are
exact multiples of the grid unit 20.  (`dragStarted` alone pins the raw
pointer position, so a zero-move drag is exempt.) -/
theorem C4_amended_final_pin_on_grid (start : ℚ × ℚ)
    (moves : List (ℚ × ℚ)) (subject : Node) (h : moves ≠ []) :
    ∃ kx ky : ℤ,
      (dragSequence start moves subject).fx = some (gridSize * kx) ∧
      (dragSequence start moves subject).fy = some (gridSize * ky) := by
  obtain ⟨kx, hkx⟩ := snapToGrid_is_multiple (moves.getLast h).1
  obtain ⟨ky, hky⟩ := snapToGrid_is_multiple (moves.getLast h).2
  refine ⟨kx, ky, ?_, ?_⟩ <;>
    · rw [dragSequence, ← List.dropLast_append_getLast h, List.foldl_append]
      simp [dragged, hkx, hky]

/-- Witness for the amended C4: start at `(7, 7)`, one drag-move to
`(33, -7)`. -/
theorem C4_amended_final_pin_on_grid_witness :
    ∃ kx ky : ℤ,
      (dragSequence (7, 7) [(33, -7)] { type := 1 }).fx =
        some (gridSize * kx) ∧
      (dragSequence (7, 7) [(33, -7)] { type := 1 }).fy =
        some (gridSize * ky) :=
  C4_amended_final_pin_on_grid (7, 7) [(33, -7)] { type := 1 }
    (List.cons_ne_nil _ _)

/-- C6: the state-type lookup table has exactly 13 entries, a node whose
`stateType` is outside `0..12` makes the `stateType[figure.type].short`
access fault (no entry exists, so the member access throws a `TypeError`
instead of rendering a generic fallback shape), while every known variant
resolves to a class string. -/
theorem C6_unknown_state_type_faults :
    stateTypeShort.length = 13 ∧
    figureCssClass "expr" { type := 13 } = none ∧
    ∀ t : ℕ, (figureCssClass "expr" { type := t }).isSome ↔ t < 13 := by
  refine ⟨rfl, rfl, fun t => ?_⟩
  rw [figureCssClass, Option.isSome_map', List.get?_eq_getElem?,
    Option.isSome_iff_ne_none]
  simp [stateTypeShort]

/-- C7: a link whose target index lies outside the node sequence makes
the `nodes[link.target].type` access in the marker-end computation fault
(the indexing yields `undefined` and the member access throws) — `render`
has no logic that drops such a link before layout — while an in-range
link resolves to a marker. -/
theorem C7_invalid_link_target_faults :
    markerEnd [{ type := 1, name := "s0" }] 5 = none ∧
    markerEnd [{ type := 1, name := "s0" }] 0 =
      some "url(#transitionEndCircle)" := by
  exact ⟨rfl, rfl⟩

/-- C8: a scale within the configured extent `[0.15, 3]` stays within the
extent under any sequence of zoom gestures of any magnitude, each gesture
being clamped to the extent. -/
theorem C8_scale_within_extent (k0 : ℚ) (factors : List ℚ)
    (h0 : scaleExtentLo ≤ k0 ∧ k0 ≤ scaleExtentHi) :
    scaleExtentLo ≤ applyZoomGestures k0 factors ∧
      applyZoomGestures k0 factors ≤ scaleExtentHi := by
  induction factors generalizing k0 with
  | nil => exact h0
  | cons f fs ih =>
    have h1 : scaleExtentLo ≤ applyZoomGesture k0 f ∧
        applyZoomGesture k0 f ≤ scaleExtentHi := by
      refine ⟨le_max_left _ _, max_le ?_ (min_le_left _ _)⟩
      norm_num [scaleExtentLo, scaleExtentHi]
    simpa [applyZoomGestures] using ih (applyZoomGesture k0 f) h1

/-- Witness for C8: scale `1` under gestures with factors `100`, `1/10⁶`
and `17`. -/
theorem C8_scale_within_extent_witness :
    scaleExtentLo ≤ applyZoomGestures 1 [100, 1/1000000, 17] ∧
      applyZoomGestures 1 [100, 1/1000000, 17] ≤ scaleExtentHi :=
  C8_scale_within_extent 1 [100, 1/1000000, 17]
    (by norm_num [scaleExtentLo, scaleExtentHi])

/-- C9: `resetTransformation` is idempotent with respect to the resulting
view transform — the installed transform depends only on the configured
initial scale/translation and the viewport extents, none of which a
second immediate call changes. -/
theorem C9_resetTransformation_idempotent (cfg : RendererConfig)
    (st : RenderState) :
    (resetTransformation cfg (resetTransformation cfg st)).transform =
      (resetTransformation cfg st).transform := rfl
